import Mathlib

/-!
Verification of the contract query engine and its companion CRUD operations of the
contractor-tool backend (`src/database/models/*.py`, `src/database/queries/contract.py`,
`src/views/contracts.py`), as a shallow embedding: the database table is a
`List Contract`, a session clock is an explicit `now : Nat`, and Python exceptions are
an explicit `Except PyErr` result.
-/

namespace ContractorTool

/-- One Python exception kind relevant here, plus the two HTTPExceptions the
submit handler raises (404 and 403). -/
inductive PyErr
| typeError
| valueError
| attributeError
| notFound404
| forbidden403
deriving DecidableEq, Repr

instance instDecEqExcept {ε α : Type} [DecidableEq ε] [DecidableEq α] :
    DecidableEq (Except ε α) := fun x y =>
  match x, y with
  | Except.ok a, Except.ok b =>
    if h : a = b then isTrue (by rw [h])
    else isFalse (by intro hh; injection hh; exact h (by assumption))
  | Except.error a, Except.error b =>
    if h : a = b then isTrue (by rw [h])
    else isFalse (by intro hh; injection hh; exact h (by assumption))
  | Except.ok _, Except.error _ => isFalse (by intro hh; exact Except.noConfusion hh)
  | Except.error _, Except.ok _ => isFalse (by intro hh; exact Except.noConfusion hh)

/-- Calendar date, the value of Python `datetime.date` (proleptic Gregorian,
year 1..9999). -/
structure Date where
  year : Nat
  month : Nat
  day : Nat
deriving DecidableEq, Repr

/-- Time of day, the value of Python `datetime.time` (microseconds elided: nothing in
the repository distinguishes them). -/
structure Time where
  hour : Nat
  minute : Nat
  second : Nat
deriving DecidableEq, Repr

/-- The `contracts` row: the columns mapped by `Contract`
(models/zip_profile.py lines 43-62) together with `created_at` / `updated_at`
inherited from `Base` (models/base.py lines 12-18). Timestamps are logical ticks of
the session clock. Note there is no `user_id` column. -/
structure Contract where
  id : String
  zip : Option String
  city : Option String
  fuel_type : Option String
  hancock_project_id : Option String
  date : Option Date
  start_at_time : Option Time
  end_at_time : Option Time
  google_meet_url : Option String
  inspection_doc : Option String
  invoice_doc : Option String
  form_stage : String
  created_at : Nat
  updated_at : Nat
deriving DecidableEq, Repr

/-- The names of the mapped attributes of the `Contract` model: the columns of
models/zip_profile.py lines 46-62 plus the two timestamp columns of `Base`
(models/base.py). `user_id` is not among them. -/
def contractColumns : List String :=
  ["id", "zip", "city", "fuel_type", "hancock_project_id", "date", "start_at_time",
   "end_at_time", "google_meet_url", "inspection_doc", "invoice_doc", "form_stage",
   "created_at", "updated_at"]

/-- The four workflow stages listed by the model comment at
models/zip_profile.py line 62. -/
def stageEnum : List String := ["project_id", "schedule", "documents", "closed"]

/-- Python truthiness of an optional string: `None` and the empty string are falsy. -/
def truthyStr : Option String → Bool
| some s => s != ""
| none => false

/-! ### Date and time parsing (Python `datetime`, as used by the queries) -/

/-- Gregorian leap-year rule, as in Python `calendar.isleap`. -/
def isLeapYear (y : Nat) : Bool :=
  y % 4 == 0 && (y % 100 != 0 || y % 400 == 0)

/-- Length of a month, as validated by the `datetime.date` constructor. -/
def daysInMonth (y m : Nat) : Nat :=
  if m == 2 then (if isLeapYear y then 29 else 28)
  else if m == 4 || m == 6 || m == 9 || m == 11 then 30
  else 31

/-- The `datetime.date` constructor's range check. -/
def validDate (y m d : Nat) : Bool :=
  1 ≤ y && y ≤ 9999 && 1 ≤ m && m ≤ 12 && 1 ≤ d && d ≤ daysInMonth y m

/-- The `datetime.time` constructor's range check. -/
def validTime (h m s : Nat) : Bool :=
  h < 24 && m < 60 && s < 60

/-- Splitting a character list at every occurrence of a separator, the behaviour of
Python `str.split(sep)` on the character level (the empty input gives one empty
field). -/
def splitOnChar (sep : Char) : List Char → List (List Char)
| [] => [[]]
| c :: rest =>
  let r := splitOnChar sep rest
  if c == sep then [] :: r
  else
    match r with
    | [] => [[c]]
    | h :: t => (c :: h) :: t

/-- The numeric value of a digit string, most significant first. -/
def digitsVal : List Char → Nat
| [] => 0
| c :: rest => (c.toNat - 48) * 10 ^ rest.length + digitsVal rest

/-- A fixed-width all-digit numeral, else `none`. -/
def digits? (l : List Char) (len : Nat) : Option Nat :=
  if l.length == len && l.all Char.isDigit then some (digitsVal l) else none

/-- Model of `datetime.date.fromisoformat` on its dash-separated form
`YYYY-MM-DD`: the calendar date when the numerals are well formed and in range,
`none` (a `ValueError` at the call sites) otherwise. -/
def dateFromIsoChars (l : List Char) : Option Date :=
  match splitOnChar '-' l with
  | [ys, ms, ds] =>
    match digits? ys 4, digits? ms 2, digits? ds 2 with
    | some y, some m, some d => if validDate y m d then some ⟨y, m, d⟩ else none
    | _, _, _ => none
  | _ => none

/-- `dateFromIsoChars` on a string's characters. -/
def dateFromIso (s : String) : Option Date :=
  dateFromIsoChars s.data

/-- Model of `datetime.time.fromisoformat` on `HH:MM` and `HH:MM:SS`. -/
def timeFromIsoChars (l : List Char) : Option Time :=
  match splitOnChar ':' l with
  | [hs, ms] =>
    match digits? hs 2, digits? ms 2 with
    | some h, some m => if validTime h m 0 then some ⟨h, m, 0⟩ else none
    | _, _ => none
  | [hs, ms, ss] =>
    match digits? hs 2, digits? ms 2, digits? ss 2 with
    | some h, some m, some s2 => if validTime h m s2 then some ⟨h, m, s2⟩ else none
    | _, _, _ => none
  | _ => none

/-- `timeFromIsoChars` on a string's characters. -/
def timeFromIso (s : String) : Option Time :=
  timeFromIsoChars s.data

/-- Model of `datetime.datetime.fromisoformat`: a `YYYY-MM-DD` date alone
(midnight), or the date, a one-character separator, and a time. -/
def datetimeFromIso (s : String) : Option (Date × Time) :=
  if s.data.length ≤ 10 then
    (dateFromIsoChars s.data).map (fun d => (d, ⟨0, 0, 0⟩))
  else
    match dateFromIsoChars (s.data.take 10), timeFromIsoChars (s.data.drop 11) with
    | some d, some t => some (d, t)
    | _, _ => none

/-- The date-filter parse of `list_contracts` (queries/contract.py lines 52-64): try
`date.fromisoformat`, on `ValueError` try `datetime.fromisoformat(...).date()`, and on
any failure yield no filter. -/
def parseDateFrom (s : String) : Option Date :=
  match dateFromIso s with
  | some d => some d
  | none => (datetimeFromIso s).map Prod.fst

/-- The date parse of `create_contract` / `update_contract`
(queries/contract.py lines 121-125 and 205-209): as `parseDateFrom`, but a double
failure is an uncaught `ValueError`. -/
def parseDateArg (s : String) : Except PyErr Date :=
  match dateFromIso s with
  | some d => Except.ok d
  | none =>
    match datetimeFromIso s with
    | some dt => Except.ok dt.1
    | none => Except.error PyErr.valueError

/-- The time parse of `create_contract` / `update_contract`
(queries/contract.py lines 131-135 and 216-220): try `time.fromisoformat`, then
`datetime.fromisoformat(...).time()`; a double failure is an uncaught `ValueError`. -/
def parseTimeArg (s : String) : Except PyErr Time :=
  match timeFromIso s with
  | some t => Except.ok t
  | none =>
    match datetimeFromIso s with
    | some dt => Except.ok dt.2
    | none => Except.error PyErr.valueError

/-! ### The list query (queries/contract.py lines 7-84) -/

/-- Chronological strict order on dates. -/
def dateLT (a b : Date) : Bool :=
  decide (a.year < b.year ∨ (a.year = b.year ∧
    (a.month < b.month ∨ (a.month = b.month ∧ a.day < b.day))))

/-- Chronological order on dates, reflexive. -/
def dateLE (a b : Date) : Bool :=
  dateLT a b || a == b

/-- Chronological order on times of day, reflexive. -/
def timeLE (a b : Time) : Bool :=
  decide (a.hour < b.hour ∨ (a.hour = b.hour ∧
    (a.minute < b.minute ∨ (a.minute = b.minute ∧ a.second ≤ b.second))))

/-- `Contract.date.asc().nulls_first()` as a strict order on the optional date
column: a NULL date sorts strictly before every present date. -/
def optDateLT : Option Date → Option Date → Bool
| none, none => false
| none, some _ => true
| some _, none => false
| some x, some y => dateLT x y

/-- `Contract.start_at_time.asc().nulls_last()` as a reflexive order on the optional
start-time column: a NULL time sorts after every present time. -/
def optTimeLE : Option Time → Option Time → Bool
| _, none => true
| none, some _ => false
| some x, some y => timeLE x y

/-- The total order of the `order_by` clause (queries/contract.py lines 73-78):
primary key the date column ascending with NULLs first, secondary key the start-time
column ascending with NULLs last. -/
def contractLE (a b : Contract) : Bool :=
  optDateLT a.date b.date || (a.date == b.date && optTimeLE a.start_at_time b.start_at_time)

/-- `contractLE` as a decidable relation, for sorting. -/
def contractOrder (a b : Contract) : Prop := contractLE a b = true

instance : DecidableRel contractOrder :=
  fun a b => inferInstanceAs (Decidable (contractLE a b = true))

/-- The relational store's ORDER BY, modelled by a stable sort under
`contractOrder`. -/
def sortContracts (l : List Contract) : List Contract :=
  List.insertionSort contractOrder l

/-- The `no_dates` presence filter (queries/contract.py lines 39-47): `True` keeps
only NULL dates, `False` only present dates, `None` keeps everything. -/
def noDatesOk (no_dates : Option Bool) (c : Contract) : Bool :=
  match no_dates with
  | some true => c.date.isNone
  | some false => c.date.isSome
  | none => true

/-- The SQL predicate `Contract.date >= filter_date`: NULL dates compare as
unknown and are filtered out. -/
def dateGe (df : Date) (c : Contract) : Bool :=
  match c.date with
  | some d => dateLE df d
  | none => false

/-- The conjunction of where-clauses applied identically to the page query and the
count query (queries/contract.py lines 36-68), with the date filter already parsed. -/
def contractFilter (no_dates : Option Bool) (df : Option Date) (c : Contract) : Bool :=
  noDatesOk no_dates c &&
    (match df with
     | some d => dateGe d c
     | none => true)

/-- The parsed date filter that actually reaches the where-clauses
(queries/contract.py lines 49-68): only when `no_dates is not True` and `date_from`
is truthy is the string parsed, and a failed parse yields no filter. -/
def effectiveDateFilter (no_dates : Option Bool) (date_from : Option String) : Option Date :=
  if no_dates != some true && truthyStr date_from then
    match date_from with
    | some s => parseDateFrom s
    | none => none
  else none

/-- The query core after filter parsing (queries/contract.py lines 32-84): count the
filtered set, order it, and slice `offset = (page - 1) * limit` through
`offset + limit`. -/
def listContractsCore (table : List Contract) (page limit : Nat)
    (no_dates : Option Bool) (df : Option Date) : List Contract × Nat :=
  (((sortContracts (table.filter (contractFilter no_dates df))).drop
      ((page - 1) * limit)).take limit,
   (table.filter (contractFilter no_dates df)).length)

/-- `list_contracts` (queries/contract.py lines 7-84). The Python defaults are
`page=1, limit=20, date_from=None, no_dates=None`. -/
def listContracts (table : List Contract) (page limit : Nat)
    (date_from : Option String) (no_dates : Option Bool) : List Contract × Nat :=
  listContractsCore table page limit no_dates (effectiveDateFilter no_dates date_from)

/-! ### Point lookup, create, update (queries/contract.py lines 87-255) -/

/-- `get_contract_by_id` (queries/contract.py lines 87-92); `id` is the primary key,
so `scalar_one_or_none` is the first match. -/
def getContractById (table : List Contract) (contract_id : String) : Option Contract :=
  table.find? (fun c => c.id == contract_id)

/-- The keyword arguments assembled for `Contract(...)` at
queries/contract.py lines 149-162, `user_id` included. -/
structure ContractKwargs where
  user_id : String
  zip : Option String
  city : Option String
  fuel_type : Option String
  hancock_project_id : Option String
  date : Option Date
  start_at_time : Option Time
  end_at_time : Option Time
  google_meet_url : Option String
  inspection_doc : Option String
  invoice_doc : Option String
  form_stage : String
deriving DecidableEq, Repr

/-- The truthiness-guarded date parse of `create_contract`
(queries/contract.py lines 118-127): `None` and `""` are falsy and parse to `None`;
otherwise a failed parse raises. -/
def parseTruthyDate : Option String → Except PyErr (Option Date)
| none => Except.ok none
| some s => if s == "" then Except.ok none else (parseDateArg s).map some

/-- The truthiness-guarded time parse of `create_contract`
(queries/contract.py lines 128-147). -/
def parseTruthyTime : Option String → Except PyErr (Option Time)
| none => Except.ok none
| some s => if s == "" then Except.ok none else (parseTimeArg s).map some

/-- queries/contract.py lines 110-162: parse the optional date and time strings and
assemble the keyword arguments passed to `Contract(...)`, including
`form_stage=form_stage or "project_id"` (an absent or empty stage defaults). -/
def createKwargs (user_id : String)
    (zip city fuel_type hancock_project_id date start_at_time end_at_time
      google_meet_url inspection_doc invoice_doc form_stage : Option String) :
    Except PyErr ContractKwargs :=
  match parseTruthyDate date, parseTruthyTime start_at_time, parseTruthyTime end_at_time with
  | Except.ok pd, Except.ok pst, Except.ok pet =>
    Except.ok
      { user_id := user_id
        zip := zip
        city := city
        fuel_type := fuel_type
        hancock_project_id := hancock_project_id
        date := pd
        start_at_time := pst
        end_at_time := pet
        google_meet_url := google_meet_url
        inspection_doc := inspection_doc
        invoice_doc := invoice_doc
        form_stage :=
          match form_stage with
          | some s => if s == "" then "project_id" else s
          | none => "project_id" }
  | Except.error e, _, _ => Except.error e
  | _, Except.error e, _ => Except.error e
  | _, _, Except.error e => Except.error e

/-- SQLAlchemy's declarative constructor checks every keyword against the mapped
attributes and raises `TypeError` at the first invalid one. `create_contract` always
passes `user_id` (queries/contract.py line 150), which the `Contract` model does not
map (models/zip_profile.py lines 43-62), so construction always fails before anything
is persisted; in the accepting branch (counterfactual here) the row is assembled from
the keywords, with a fresh `id` and server-set timestamps. -/
def contractInit (kw : ContractKwargs) (newId : String) (now : Nat) : Except PyErr Contract :=
  if contractColumns.contains "user_id" then
    Except.ok
      { id := newId
        zip := kw.zip
        city := kw.city
        fuel_type := kw.fuel_type
        hancock_project_id := kw.hancock_project_id
        date := kw.date
        start_at_time := kw.start_at_time
        end_at_time := kw.end_at_time
        google_meet_url := kw.google_meet_url
        inspection_doc := kw.inspection_doc
        invoice_doc := kw.invoice_doc
        form_stage := kw.form_stage
        created_at := now
        updated_at := now }
  else Except.error PyErr.typeError

/-- `create_contract` (queries/contract.py lines 95-166): parse, construct, insert,
commit. -/
def createContract (table : List Contract) (now : Nat) (newId : String) (user_id : String)
    (zip city fuel_type hancock_project_id date start_at_time end_at_time
      google_meet_url inspection_doc invoice_doc form_stage : Option String) :
    Except PyErr (List Contract × Contract) :=
  match createKwargs user_id zip city fuel_type hancock_project_id date start_at_time
      end_at_time google_meet_url inspection_doc invoice_doc form_stage with
  | Except.error e => Except.error e
  | Except.ok kw =>
    match contractInit kw newId now with
    | Except.error e => Except.error e
    | Except.ok c => Except.ok (table ++ [c], c)

/-- The `is not None` guarded date parse of `update_contract`
(queries/contract.py lines 202-212): an empty string is parsed (and raises). -/
def parseOptDate : Option String → Except PyErr (Option Date)
| none => Except.ok none
| some s => (parseDateArg s).map some

/-- The `is not None` guarded time parse of `update_contract`
(queries/contract.py lines 213-234). -/
def parseOptTime : Option String → Except PyErr (Option Time)
| none => Except.ok none
| some s => (parseTimeArg s).map some

/-- One nullable column under `update_data`: a key present in the dictionary (the
argument was not `None`) overwrites, an absent key leaves the stored value. -/
def overwrite {α : Type} (new : Option α) (old : Option α) : Option α :=
  match new with
  | some v => some v
  | none => old

/-- The non-nullable `form_stage` column under `update_data`. -/
def overwriteStage (new : Option String) (old : String) : String :=
  match new with
  | some v => v
  | none => old

/-- The per-column merge of `update(Contract).values(**update_data)`
(queries/contract.py lines 192-252), plus the `updated_at` refresh from the
`onupdate=func.now()` of `Base.updated_at` (models/base.py lines 16-18): exactly the
keys present in `update_data` are overwritten. -/
def applyUpdate (c : Contract) (now : Nat)
    (zip city fuel_type hancock_project_id : Option String)
    (pd : Option Date) (pst pet : Option Time)
    (google_meet_url inspection_doc invoice_doc form_stage : Option String) : Contract :=
  { c with
    zip := overwrite zip c.zip
    city := overwrite city c.city
    fuel_type := overwrite fuel_type c.fuel_type
    hancock_project_id := overwrite hancock_project_id c.hancock_project_id
    date := overwrite pd c.date
    start_at_time := overwrite pst c.start_at_time
    end_at_time := overwrite pet c.end_at_time
    google_meet_url := overwrite google_meet_url c.google_meet_url
    inspection_doc := overwrite inspection_doc c.inspection_doc
    invoice_doc := overwrite invoice_doc c.invoice_doc
    form_stage := overwriteStage form_stage c.form_stage
    updated_at := now }

/-- `update_contract` (queries/contract.py lines 169-255): fetch by id (`None` when
absent), build `update_data` from the arguments that are not `None` (parsing date and
time strings, whose failures raise before any write), return the fetched row untouched
when `update_data` is empty, else execute the update, commit, and re-fetch. -/
def updateContract (table : List Contract) (now : Nat) (contract_id : String)
    (zip city fuel_type hancock_project_id date start_at_time end_at_time
      google_meet_url inspection_doc invoice_doc form_stage : Option String) :
    Except PyErr (List Contract × Option Contract) :=
  match getContractById table contract_id with
  | none => Except.ok (table, none)
  | some c =>
    match parseOptDate date with
    | Except.error e => Except.error e
    | Except.ok pd =>
      match parseOptTime start_at_time with
      | Except.error e => Except.error e
      | Except.ok pst =>
        match parseOptTime end_at_time with
        | Except.error e => Except.error e
        | Except.ok pet =>
          if zip.isNone && city.isNone && fuel_type.isNone && hancock_project_id.isNone &&
              date.isNone && start_at_time.isNone && end_at_time.isNone &&
              google_meet_url.isNone && inspection_doc.isNone && invoice_doc.isNone &&
              form_stage.isNone then
            Except.ok (table, some c)
          else
            Except.ok
              (table.map (fun r =>
                if r.id == contract_id then
                  applyUpdate r now zip city fuel_type hancock_project_id pd pst pet
                    google_meet_url inspection_doc invoice_doc form_stage
                else r),
               getContractById (table.map (fun r =>
                if r.id == contract_id then
                  applyUpdate r now zip city fuel_type hancock_project_id pd pst pet
                    google_meet_url inspection_doc invoice_doc form_stage
                else r)) contract_id)

/-! ### The HTTP handlers (views/contracts.py) -/

/-- The request body of the submit endpoint (`ContractRequest`,
views/contracts.py lines 39-52). -/
structure ContractRequest where
  user_id : String
  contract_id : Option String
  zip : Option String
  city : Option String
  fuel_type : Option String
  hancock_project_id : Option String
  date : Option String
  start_at_time : Option String
  end_at_time : Option String
  google_meet_url : Option String
  inspection_doc : Option String
  invoice_doc : Option String
  form_stage : Option String
deriving DecidableEq, Repr

/-- views/contracts.py line 214 reads `contract.user_id`, but the `Contract` model
maps no `user_id` attribute (see `contractColumns`), so the read raises
`AttributeError` instead of producing an owner to compare. -/
def contractUserIdAttr (c : Contract) : Except PyErr String :=
  if contractColumns.contains "user_id" then Except.ok c.id else Except.error PyErr.attributeError

/-- `submit_contract` (views/contracts.py lines 181-256). With a truthy `contract_id`
it first runs `update_contract` (which commits) and only afterwards checks ownership;
otherwise it runs `create_contract`. Exceptions do not undo a committed write, so the
table is returned alongside the outcome. On full success the handler would build a
`ContractResponse`, whose `user_id` field reads the same missing attribute; that path
is unreachable because the ownership read itself raises first. -/
def submitContract (table : List Contract) (now : Nat) (newId : String)
    (req : ContractRequest) : List Contract × Except PyErr Contract :=
  if truthyStr req.contract_id then
    match updateContract table now (req.contract_id.getD "") req.zip req.city
        req.fuel_type req.hancock_project_id req.date req.start_at_time req.end_at_time
        req.google_meet_url req.inspection_doc req.invoice_doc req.form_stage with
    | Except.error e => (table, Except.error e)
    | Except.ok (table2, none) => (table2, Except.error PyErr.notFound404)
    | Except.ok (table2, some c) =>
      match contractUserIdAttr c with
      | Except.error e => (table2, Except.error e)
      | Except.ok uid =>
        if uid != req.user_id then (table2, Except.error PyErr.forbidden403)
        else (table2, Except.ok c)
  else
    match createContract table now newId req.user_id req.zip req.city req.fuel_type
        req.hancock_project_id req.date req.start_at_time req.end_at_time
        req.google_meet_url req.inspection_doc req.invoice_doc req.form_stage with
    | Except.error e => (table, Except.error e)
    | Except.ok (table2, c) => (table2, Except.ok c)

/-- The response items of the list endpoint (`ContractListItem`,
views/contracts.py lines 78-91). -/
structure ContractListItem where
  id : String
  zip : Option String
  city : Option String
  fuel_type : Option String
  hancock_project_id : Option String
  formatted_datetime : Option String
  meeting_url : Option String
  inspection_doc : Option String
  invoice_doc : Option String
  form_stage : String
deriving DecidableEq, Repr

/-- views/contracts.py line 99 binds the `(items, total_count)` pair returned by the
query function to `contracts`; the handler then iterates over that pair, so the loop
sees the list object and then the int. -/
inductive PairElem
| items (l : List Contract)
| count (n : Nat)
deriving Repr

/-- The elements produced by iterating the bound pair. -/
def pairElems (p : List Contract × Nat) : List PairElem :=
  [PairElem.items p.1, PairElem.count p.2]

/-- views/contracts.py line 102 evaluates `contract.id` on each iterated element;
neither a Python list nor an int has an `id` attribute in the model's sense, so the
first iteration raises `AttributeError` before any `ContractListItem` is built. -/
def listItemOfElem : PairElem → Except PyErr ContractListItem
| PairElem.items _ => Except.error PyErr.attributeError
| PairElem.count _ => Except.error PyErr.attributeError

/-- The `GET /contracts/list` handler (views/contracts.py lines 94-114): it accepts no
query parameters, invokes the query with the Python defaults
`page=1, limit=20, date_from=None, no_dates=None`, and maps the item constructor over
the iterated elements of the bound pair. -/
def listContractsEndpoint (table : List Contract) : Except PyErr (List ContractListItem) :=
  (pairElems (listContracts table 1 20 none none)).mapM listItemOfElem

/-! ### Sample data -/

def blankContract : Contract :=
  { id := "", zip := none, city := none, fuel_type := none, hancock_project_id := none,
    date := none, start_at_time := none, end_at_time := none, google_meet_url := none,
    inspection_doc := none, invoice_doc := none, form_stage := "project_id",
    created_at := 0, updated_at := 0 }

def cNull : Contract := { blankContract with id := "a" }
def cJan5NoTime : Contract := { blankContract with id := "b", date := some ⟨2026, 1, 5⟩ }
def cJan5Nine : Contract :=
  { blankContract with id := "c", date := some ⟨2026, 1, 5⟩, start_at_time := some ⟨9, 0, 0⟩ }
def cJan10 : Contract := { blankContract with id := "d", date := some ⟨2026, 1, 10⟩ }

def exampleTable : List Contract := [cNull, cJan5NoTime, cJan5Nine, cJan10]

def cUpdate : Contract :=
  { blankContract with id := "u1", zip := some "02139", city := some "Boston" }

def upTable : List Contract := [{ cUpdate with form_stage := "schedule", updated_at := 9 }]

def upRes : Option Contract := some { cUpdate with form_stage := "schedule", updated_at := 9 }

def c6rec : Contract := { blankContract with id := "c1", city := some "OldCity" }

def c6req : ContractRequest :=
  { user_id := "bob", contract_id := some "c1", zip := none, city := some "NewCity",
    fuel_type := none, hancock_project_id := none, date := none, start_at_time := none,
    end_at_time := none, google_meet_url := none, inspection_doc := none,
    invoice_doc := none, form_stage := none }


/-! ### Proofs -/


lemma dateLT_trans {a b c : Date} (h1 : dateLT a b = true) (h2 : dateLT b c = true) :
    dateLT a c = true := by
  simp only [dateLT, decide_eq_true_eq] at h1 h2 ⊢
  omega

lemma dateLT_conn {a b : Date} (h1 : dateLT a b = false) (h2 : dateLT b a = false) : a = b := by
  obtain ⟨y1, m1, d1⟩ := a
  obtain ⟨y2, m2, d2⟩ := b
  simp only [dateLT, decide_eq_false_iff_not] at h1 h2
  simp only [Date.mk.injEq]
  omega

lemma timeLE_trans {a b c : Time} (h1 : timeLE a b = true) (h2 : timeLE b c = true) :
    timeLE a c = true := by
  simp only [timeLE, decide_eq_true_eq] at h1 h2 ⊢
  omega

lemma timeLE_total (a b : Time) : timeLE a b = true ∨ timeLE b a = true := by
  simp only [timeLE, decide_eq_true_eq]
  omega

lemma optDateLT_trans {x y z : Option Date} (h1 : optDateLT x y = true)
    (h2 : optDateLT y z = true) : optDateLT x z = true := by
  cases x <;> cases y <;> cases z <;> simp_all [optDateLT]
  exact dateLT_trans h1 h2

lemma optDateLT_conn {x y : Option Date} (h1 : optDateLT x y = false)
    (h2 : optDateLT y x = false) : x = y := by
  cases x <;> cases y <;> simp_all [optDateLT]
  exact dateLT_conn h1 h2

lemma optTimeLE_trans {x y z : Option Time} (h1 : optTimeLE x y = true)
    (h2 : optTimeLE y z = true) : optTimeLE x z = true := by
  cases x <;> cases y <;> cases z <;> simp_all [optTimeLE]
  exact timeLE_trans h1 h2

lemma optTimeLE_total (x y : Option Time) : optTimeLE x y = true ∨ optTimeLE y x = true := by
  cases x <;> cases y <;> simp_all [optTimeLE]
  exact timeLE_total _ _

lemma contractLE_trans {a b c : Contract} (h1 : contractLE a b = true)
    (h2 : contractLE b c = true) : contractLE a c = true := by
  simp only [contractLE, Bool.or_eq_true, Bool.and_eq_true, beq_iff_eq] at h1 h2 ⊢
  rcases h1 with h1 | ⟨e1, t1⟩
  · rcases h2 with h2 | ⟨e2, t2⟩
    · exact Or.inl (optDateLT_trans h1 h2)
    · exact Or.inl (e2 ▸ h1)
  · rcases h2 with h2 | ⟨e2, t2⟩
    · exact Or.inl (e1.symm ▸ h2)
    · exact Or.inr ⟨e1.trans e2, optTimeLE_trans t1 t2⟩

lemma contractLE_total (a b : Contract) : contractLE a b = true ∨ contractLE b a = true := by
  simp only [contractLE, Bool.or_eq_true, Bool.and_eq_true, beq_iff_eq]
  rcases h1 : optDateLT a.date b.date with _ | _
  · rcases h2 : optDateLT b.date a.date with _ | _
    · have e := optDateLT_conn h1 h2
      rcases optTimeLE_total a.start_at_time b.start_at_time with ht | ht
      · exact Or.inl (Or.inr ⟨e, ht⟩)
      · exact Or.inr (Or.inr ⟨e.symm, ht⟩)
    · exact Or.inr (Or.inl rfl)
  · exact Or.inl (Or.inl rfl)

instance : IsTrans Contract contractOrder :=
  ⟨fun _ _ _ h1 h2 => contractLE_trans h1 h2⟩

instance : IsTotal Contract contractOrder :=
  ⟨fun a b => contractLE_total a b⟩

lemma sortContracts_sorted (l : List Contract) :
    List.Sorted contractOrder (sortContracts l) :=
  List.sorted_insertionSort contractOrder l

lemma sortContracts_perm (l : List Contract) : (sortContracts l).Perm l :=
  List.perm_insertionSort contractOrder l

lemma mem_items_filter {table : List Contract} {page limit : Nat} {nd : Option Bool}
    {df : Option Date} {c : Contract}
    (h : c ∈ (listContractsCore table page limit nd df).1) :
    c ∈ table ∧ contractFilter nd df c = true := by
  simp only [listContractsCore] at h
  have h1 : c ∈ sortContracts (table.filter (contractFilter nd df)) :=
    List.mem_of_mem_drop (List.mem_of_mem_take h)
  have h2 : c ∈ table.filter (contractFilter nd df) :=
    (sortContracts_perm _).mem_iff.mp h1
  exact List.mem_filter.mp h2

/-- C1: the listing's order. -/
theorem list_contracts_ordering :
    (∀ table page limit date_from no_dates,
      List.Sorted contractOrder
        (sortContracts (table.filter (contractFilter no_dates
          (effectiveDateFilter no_dates date_from)))) ∧
      List.Sorted contractOrder (listContracts table page limit date_from no_dates).1) ∧
    listContracts exampleTable 1 20 none none = ([cNull, cJan5Nine, cJan5NoTime, cJan10], 4) := by
  constructor
  · intro table page limit date_from no_dates
    refine ⟨sortContracts_sorted _, ?_⟩
    simp only [listContracts, listContractsCore]
    exact List.Pairwise.sublist
      ((List.take_sublist _ _).trans (List.drop_sublist _ _)) (sortContracts_sorted _)
  · decide

/-- C2: pagination slice and count. -/
theorem list_contracts_pagination (table : List Contract) (date_from : Option String)
    (no_dates : Option Bool) (page limit : Nat) (_hp : 1 ≤ page) (_hl : 1 ≤ limit) :
    (listContracts table page limit date_from no_dates).1.length ≤ limit ∧
    (listContracts table page limit date_from no_dates).1 =
      ((sortContracts (table.filter (contractFilter no_dates
        (effectiveDateFilter no_dates date_from)))).drop ((page - 1) * limit)).take limit ∧
    (listContracts table page limit date_from no_dates).2 =
      (table.filter (contractFilter no_dates (effectiveDateFilter no_dates date_from))).length ∧
    ∀ page2 limit2, (listContracts table page2 limit2 date_from no_dates).2 =
      (listContracts table page limit date_from no_dates).2 :=
  ⟨List.length_take_le _ _, rfl, rfl, fun _ _ => rfl⟩

theorem list_contracts_pagination_witness :
    (listContracts exampleTable 2 3 none none).1.length ≤ 3 ∧
    (listContracts exampleTable 5 7 none none).2 = (listContracts exampleTable 2 3 none none).2 :=
  ⟨(list_contracts_pagination exampleTable none none 2 3 (by decide) (by decide)).1,
   (list_contracts_pagination exampleTable none none 2 3 (by decide)
     (by decide)).2.2.2 5 7⟩

/-- C3: no_dates = true keeps only NULL dates and ignores date_from. -/
theorem list_contracts_no_dates (table : List Contract) (page limit : Nat)
    (date_from : Option String) :
    (∀ c ∈ (listContracts table page limit date_from (some true)).1, c.date = none) ∧
    listContracts table page limit date_from (some true) =
      listContracts table page limit none (some true) := by
  constructor
  · intro c hc
    simp only [listContracts] at hc
    obtain ⟨-, hf⟩ := mem_items_filter hc
    simp only [contractFilter, Bool.and_eq_true, noDatesOk] at hf
    exact Option.isNone_iff_eq_none.mp hf.1
  · rfl

lemma parseDateFrom_empty : parseDateFrom "" = none := rfl

lemma effectiveDateFilter_some {no_dates : Option Bool} {s : String} {d : Date}
    (hnd : no_dates ≠ some true) (hp : parseDateFrom s = some d) :
    effectiveDateFilter no_dates (some s) = some d := by
  have hs : s ≠ "" := by
    intro he
    rw [he, parseDateFrom_empty] at hp
    cases hp
  have hb : (no_dates != some true && truthyStr (some s)) = true := by
    simp [truthyStr, bne_iff_ne, hnd, hs]
  simp only [effectiveDateFilter, hb, if_true]
  exact hp

lemma effectiveDateFilter_noparse {no_dates : Option Bool} {s : String}
    (hp : parseDateFrom s = none) :
    effectiveDateFilter no_dates (some s) = none := by
  simp only [effectiveDateFilter]
  split
  · exact hp
  · rfl

lemma effectiveDateFilter_none (no_dates : Option Bool) :
    effectiveDateFilter no_dates none = none := by
  simp [effectiveDateFilter, truthyStr]

/-- C4: date_from handling when no_dates is not true. -/
theorem list_contracts_date_from (table : List Contract) (page limit : Nat) (s : String)
    (no_dates : Option Bool) (hnd : no_dates ≠ some true) :
    (∀ d, parseDateFrom s = some d →
      listContracts table page limit (some s) no_dates =
        listContractsCore table page limit no_dates (some d) ∧
      ∀ c ∈ (listContracts table page limit (some s) no_dates).1,
        ∃ cd, c.date = some cd ∧ dateLE d cd = true) ∧
    (parseDateFrom s = none →
      listContracts table page limit (some s) no_dates =
        listContracts table page limit none no_dates) := by
  constructor
  · intro d hp
    have he := effectiveDateFilter_some hnd hp
    constructor
    · simp only [listContracts, he]
    · intro c hc
      simp only [listContracts, he] at hc
      obtain ⟨-, hf⟩ := mem_items_filter hc
      simp only [contractFilter, Bool.and_eq_true] at hf
      have hg := hf.2
      simp only [dateGe] at hg
      rcases hcd : c.date with _ | cd
      · rw [hcd] at hg
        simp at hg
      · rw [hcd] at hg
        exact ⟨cd, rfl, hg⟩
  · intro hp
    simp only [listContracts, effectiveDateFilter_noparse hp, effectiveDateFilter_none]

theorem list_contracts_date_from_witness :
    listContracts exampleTable 1 20 (some "2026-01-05") none =
      listContractsCore exampleTable 1 20 none (some ⟨2026, 1, 5⟩) ∧
    listContracts exampleTable 1 20 (some "not-a-date") none =
      listContracts exampleTable 1 20 none none :=
  ⟨((list_contracts_date_from exampleTable 1 20 "2026-01-05" none (by decide)).1
      ⟨2026, 1, 5⟩ (by decide)).1,
   (list_contracts_date_from exampleTable 1 20 "not-a-date" none (by decide)).2 (by decide)⟩

lemma getContractById_map {cid : String} {f : Contract → Contract}
    (hf : ∀ c, (f c).id = c.id) {table : List Contract} {r : Contract}
    (h : getContractById table cid = some r) :
    getContractById (table.map (fun c => if c.id == cid then f c else c)) cid = some (f r) := by
  induction table with
  | nil => simp [getContractById] at h
  | cons a t ih =>
    simp only [getContractById, List.map_cons] at h ⊢
    by_cases ha : (a.id == cid) = true
    · simp only [List.find?_cons, ha] at h
      rw [if_pos ha]
      simp only [List.find?_cons, hf a, ha]
      exact congrArg (fun x => some (f x)) (Option.some.inj h)
    · have ha2 : (a.id == cid) = false := by
        revert ha
        cases (a.id == cid) <;> simp
      simp only [List.find?_cons, ha2] at h
      simp only [getContractById] at ih
      rw [if_neg ha]
      simp only [List.find?_cons, ha2]
      exact ih h

/-- C10: an update providing no field at all performs no write and returns the stored
row unchanged. -/
theorem update_contract_noop (table : List Contract) (now : Nat) (cid : String) :
    updateContract table now cid none none none none none none none none none none none =
      Except.ok (table, getContractById table cid) := by
  rcases h : getContractById table cid with _ | c <;>
    simp [updateContract, h, parseOptDate, parseOptTime]

/-- C5: the sparse update merges exactly the provided fields. -/
theorem update_contract_merge (table : List Contract) (now : Nat) (cid : String)
    (zip city fuel_type hancock_project_id date start_at_time end_at_time
      google_meet_url inspection_doc invoice_doc form_stage : Option String)
    (st2 : List Contract) (res : Option Contract)
    (h : updateContract table now cid zip city fuel_type hancock_project_id date
      start_at_time end_at_time google_meet_url inspection_doc invoice_doc form_stage =
        Except.ok (st2, res)) :
    (getContractById table cid = none → st2 = table ∧ res = none) ∧
    ∀ r, getContractById table cid = some r →
      ∃ r2, res = some r2 ∧
        r2.id = r.id ∧
        r2.zip = overwrite zip r.zip ∧
        r2.city = overwrite city r.city ∧
        r2.fuel_type = overwrite fuel_type r.fuel_type ∧
        r2.hancock_project_id = overwrite hancock_project_id r.hancock_project_id ∧
        (date = none → r2.date = r.date) ∧
        (∀ s, date = some s → ∃ d, parseDateArg s = Except.ok d ∧ r2.date = some d) ∧
        (start_at_time = none → r2.start_at_time = r.start_at_time) ∧
        (∀ s, start_at_time = some s →
          ∃ t, parseTimeArg s = Except.ok t ∧ r2.start_at_time = some t) ∧
        (end_at_time = none → r2.end_at_time = r.end_at_time) ∧
        (∀ s, end_at_time = some s →
          ∃ t, parseTimeArg s = Except.ok t ∧ r2.end_at_time = some t) ∧
        r2.google_meet_url = overwrite google_meet_url r.google_meet_url ∧
        r2.inspection_doc = overwrite inspection_doc r.inspection_doc ∧
        r2.invoice_doc = overwrite invoice_doc r.invoice_doc ∧
        r2.form_stage = overwriteStage form_stage r.form_stage ∧
        r2.created_at = r.created_at ∧
        ∀ c ∈ table, c.id ≠ cid → c ∈ st2 := by
  rcases hfind : getContractById table cid with _ | c0
  · simp only [updateContract, hfind] at h
    simp only [Except.ok.injEq, Prod.mk.injEq] at h
    exact ⟨fun _ => ⟨h.1.symm, h.2.symm⟩, fun r hr => nomatch hr⟩
  · simp only [updateContract, hfind] at h
    rcases hpd : parseOptDate date with e | pd
    · rw [hpd] at h
      simp at h
    rcases hpst : parseOptTime start_at_time with e | pst
    · rw [hpd, hpst] at h
      simp at h
    rcases hpet : parseOptTime end_at_time with e | pet
    · rw [hpd, hpst, hpet] at h
      simp at h
    rw [hpd, hpst, hpet] at h
    simp only [] at h
    refine ⟨(fun hnone => nomatch hnone), fun r hr => ?_⟩
    obtain rfl : c0 = r := Option.some.inj hr
    by_cases hall : (zip.isNone && city.isNone && fuel_type.isNone &&
        hancock_project_id.isNone && date.isNone && start_at_time.isNone &&
        end_at_time.isNone && google_meet_url.isNone && inspection_doc.isNone &&
        invoice_doc.isNone && form_stage.isNone) = true
    · rw [if_pos hall] at h
      simp only [Except.ok.injEq, Prod.mk.injEq] at h
      simp only [Bool.and_eq_true, Option.isNone_iff_eq_none] at hall
      obtain ⟨⟨⟨⟨⟨⟨⟨⟨⟨⟨hz, hc⟩, hft⟩, hhp⟩, hd⟩, hs⟩, he2⟩, hg⟩, hi⟩, hv⟩, hfs⟩ := hall
      subst hz; subst hc; subst hft; subst hhp; subst hd; subst hs; subst he2
      subst hg; subst hi; subst hv; subst hfs
      exact ⟨c0, h.2.symm, rfl, rfl, rfl, rfl, rfl, fun _ => rfl,
        (fun s hs => nomatch hs), fun _ => rfl, (fun s hs => nomatch hs), fun _ => rfl,
        (fun s hs => nomatch hs), rfl, rfl, rfl, rfl, rfl, fun c hc _ => h.1 ▸ hc⟩
    · rw [if_neg hall] at h
      simp only [Except.ok.injEq, Prod.mk.injEq] at h
      have hres : res = some (applyUpdate c0 now zip city fuel_type hancock_project_id
          pd pst pet google_meet_url inspection_doc invoice_doc form_stage) := by
        rw [← h.2]
        exact getContractById_map (f := fun r => applyUpdate r now zip city fuel_type
          hancock_project_id pd pst pet google_meet_url inspection_doc invoice_doc
          form_stage) (fun c => rfl) hfind
      refine ⟨applyUpdate c0 now zip city fuel_type hancock_project_id pd pst pet
        google_meet_url inspection_doc invoice_doc form_stage, hres, rfl, rfl, rfl, rfl, rfl,
        ?hdnone, ?hdsome, ?hsnone, ?hssome, ?henone, ?hesome, rfl, rfl, rfl, rfl, rfl, ?hmem⟩
      case hdnone =>
        intro hd0
        subst hd0
        simp only [parseOptDate, Except.ok.injEq] at hpd
        subst hpd
        rfl
      case hdsome =>
        intro s hs
        subst hs
        simp only [parseOptDate] at hpd
        rcases hda : parseDateArg s with e | d
        · rw [hda] at hpd
          simp only [Except.map] at hpd
          exact Except.noConfusion hpd
        · rw [hda] at hpd
          simp only [Except.map, Except.ok.injEq] at hpd
          subst hpd
          exact ⟨d, rfl, rfl⟩
      case hsnone =>
        intro hs0
        subst hs0
        simp only [parseOptTime, Except.ok.injEq] at hpst
        subst hpst
        rfl
      case hssome =>
        intro s hs
        subst hs
        simp only [parseOptTime] at hpst
        rcases hta : parseTimeArg s with e | t
        · rw [hta] at hpst
          simp only [Except.map] at hpst
          exact Except.noConfusion hpst
        · rw [hta] at hpst
          simp only [Except.map, Except.ok.injEq] at hpst
          subst hpst
          exact ⟨t, rfl, rfl⟩
      case henone =>
        intro he0
        subst he0
        simp only [parseOptTime, Except.ok.injEq] at hpet
        subst hpet
        rfl
      case hesome =>
        intro s hs
        subst hs
        simp only [parseOptTime] at hpet
        rcases hta : parseTimeArg s with e | t
        · rw [hta] at hpet
          simp only [Except.map] at hpet
          exact Except.noConfusion hpet
        · rw [hta] at hpet
          simp only [Except.map, Except.ok.injEq] at hpet
          subst hpet
          exact ⟨t, rfl, rfl⟩
      case hmem =>
        intro c hc hne
        rw [← h.1]
        have hb : (c.id == cid) = false := by
          simp [hne]
        have hm := List.mem_map_of_mem (fun r => if r.id == cid then applyUpdate r now zip
          city fuel_type hancock_project_id pd pst pet google_meet_url inspection_doc
          invoice_doc form_stage else r) hc
        simpa [hb] using hm

theorem update_contract_merge_witness :
    ∃ r2, upRes = some r2 ∧
      r2.id = cUpdate.id ∧
      r2.zip = overwrite none cUpdate.zip ∧
      r2.city = overwrite none cUpdate.city ∧
      r2.fuel_type = overwrite none cUpdate.fuel_type ∧
      r2.hancock_project_id = overwrite none cUpdate.hancock_project_id ∧
      ((none : Option String) = none → r2.date = cUpdate.date) ∧
      (∀ s, (none : Option String) = some s →
        ∃ d, parseDateArg s = Except.ok d ∧ r2.date = some d) ∧
      ((none : Option String) = none → r2.start_at_time = cUpdate.start_at_time) ∧
      (∀ s, (none : Option String) = some s →
        ∃ t, parseTimeArg s = Except.ok t ∧ r2.start_at_time = some t) ∧
      ((none : Option String) = none → r2.end_at_time = cUpdate.end_at_time) ∧
      (∀ s, (none : Option String) = some s →
        ∃ t, parseTimeArg s = Except.ok t ∧ r2.end_at_time = some t) ∧
      r2.google_meet_url = overwrite none cUpdate.google_meet_url ∧
      r2.inspection_doc = overwrite none cUpdate.inspection_doc ∧
      r2.invoice_doc = overwrite none cUpdate.invoice_doc ∧
      r2.form_stage = overwriteStage (some "schedule") cUpdate.form_stage ∧
      r2.created_at = cUpdate.created_at ∧
      ∀ c ∈ [cUpdate], c.id ≠ "u1" → c ∈ upTable :=
  (update_contract_merge [cUpdate] 9 "u1" none none none none none none none none none
    none (some "schedule") upTable upRes (by decide)).2 cUpdate (by decide)

/-- C7 counterexample: an update stores an out-of-enumeration form_stage verbatim. -/
theorem form_stage_enum_counterexample :
    updateContract [{ blankContract with id := "s1" }] 3 "s1" none none none none none
        none none none none none (some "banana") =
      Except.ok ([{ blankContract with id := "s1", form_stage := "banana", updated_at := 3 }],
        some { blankContract with id := "s1", form_stage := "banana", updated_at := 3 }) ∧
    "banana" ∉ stageEnum := by
  exact ⟨by decide, by decide⟩

/-- C7 amended: the enumeration is preserved only when the supplied stage is in it, and
create computes the default project_id for the row it attempts to insert. -/
theorem form_stage_enum_amended :
    (∀ table now cid zip city fuel_type hancock_project_id date start_at_time end_at_time
        google_meet_url inspection_doc invoice_doc form_stage st2 res,
      (∀ c ∈ table, c.form_stage ∈ stageEnum) →
      (∀ s, form_stage = some s → s ∈ stageEnum) →
      updateContract table now cid zip city fuel_type hancock_project_id date start_at_time
        end_at_time google_meet_url inspection_doc invoice_doc form_stage =
          Except.ok (st2, res) →
      ∀ c ∈ st2, c.form_stage ∈ stageEnum) ∧
    (∀ user_id zip city fuel_type hancock_project_id google_meet_url inspection_doc
        invoice_doc kw,
      createKwargs user_id zip city fuel_type hancock_project_id none none none
        google_meet_url inspection_doc invoice_doc none = Except.ok kw →
      kw.form_stage = "project_id") := by
  constructor
  · intro table now cid zip city fuel_type hancock_project_id date start_at_time
      end_at_time google_meet_url inspection_doc invoice_doc form_stage st2 res
      hstages hfs h c hc
    rcases hfind : getContractById table cid with _ | c0 <;>
      simp only [updateContract, hfind] at h
    · obtain ⟨h1, -⟩ : table = st2 ∧ (none : Option Contract) = res := by
        simpa using h
      exact hstages c (h1 ▸ hc)
    · rcases hpd : parseOptDate date with e | pd
      · rw [hpd] at h
        simp at h
      rcases hpst : parseOptTime start_at_time with e | pst
      · rw [hpd, hpst] at h
        simp at h
      rcases hpet : parseOptTime end_at_time with e | pet
      · rw [hpd, hpst, hpet] at h
        simp at h
      rw [hpd, hpst, hpet] at h
      simp only [] at h
      by_cases hall : (zip.isNone && city.isNone && fuel_type.isNone &&
          hancock_project_id.isNone && date.isNone && start_at_time.isNone &&
          end_at_time.isNone && google_meet_url.isNone && inspection_doc.isNone &&
          invoice_doc.isNone && form_stage.isNone) = true
      · rw [if_pos hall] at h
        simp only [Except.ok.injEq, Prod.mk.injEq] at h
        exact hstages c (h.1 ▸ hc)
      · rw [if_neg hall] at h
        simp only [Except.ok.injEq, Prod.mk.injEq] at h
        rw [← h.1] at hc
        obtain ⟨c1, hc1, hgc⟩ := List.mem_map.mp hc
        by_cases hb : (c1.id == cid) = true
        · rw [if_pos hb] at hgc
          rw [← hgc]
          rcases hfs0 : form_stage with _ | s
          · simpa [applyUpdate, overwriteStage] using hstages c1 hc1
          · simpa [applyUpdate, overwriteStage] using hfs s hfs0
        · rw [if_neg hb] at hgc
          exact hgc ▸ hstages c1 hc1
  · intro user_id zip city fuel_type hancock_project_id google_meet_url inspection_doc
      invoice_doc kw h
    simp only [createKwargs, parseTruthyDate, parseTruthyTime, Except.ok.injEq] at h
    rw [← h]

/-- C6: a submit that should be rejected for ownership commits its write first and then
fails with AttributeError (the model has no user_id column), never with 403. -/
theorem submit_ownership_check_after_commit :
    (submitContract [c6rec] 7 "new-id" c6req).2 = Except.error PyErr.attributeError ∧
    (submitContract [c6rec] 7 "new-id" c6req).2 ≠ Except.error PyErr.forbidden403 ∧
    getContractById (submitContract [c6rec] 7 "new-id" c6req).1 "c1" =
      some { c6rec with city := some "NewCity", updated_at := 7 } ∧
    c6rec.city = some "OldCity" := by
  exact ⟨by decide, by decide, by decide, by decide⟩

/-- C8: the list endpoint takes no query parameters and raises AttributeError on every
request, returning neither items nor total_count. -/
theorem list_endpoint_always_raises (table : List Contract) :
    listContractsEndpoint table = Except.error PyErr.attributeError := rfl

/-- C9: create always raises TypeError (no user_id column), so no contract with
date 2026-01-21 is ever stored or read back, although the date string itself parses. -/
theorem create_contract_type_error :
    createContract [] 0 "new-id" "u1" none none none none (some "2026-01-21") none none
        none none none none = Except.error PyErr.typeError ∧
    dateFromIso "2026-01-21" = some ⟨2026, 1, 21⟩ := by
  exact ⟨by decide, by decide⟩

end ContractorTool
